import Mathlib

/- Verification of the power-analysis core (src/power/src/power.rs).

   Modelling conventions:
   * Machine floats (f64) are modelled by real numbers in the analysis layer.
     In the JSON construction layer they are modelled by rationals, since every
     numeric literal a caller can send in a JSON string denotes a rational;
     this makes construction fully executable and decidable.
   * Rust panics (unwrap / expect) are modelled by an explicit `Panic` outcome
     type, so that "returns an error to the caller" and "aborts" are distinct.
   * `serde_json::Value` is modelled by an association list of fields whose
     values are either a string (classified by what it parses as) or a
     non-string JSON value.
   * The external `roots` crate's `find_root_regula_falsi` and the `dist`
     crate's cdf/quantile evaluators enter as explicit parameters
     (`FindRoot`, `PDistEngine`); theorems quantify over them.  A root-finder
     result of `none` models both an `Err` return and a NaN result.  -/

/-- Classification of the text content of a JSON string field: it parses as an
integer, it parses as a float but not as an integer, or it parses as neither. -/
inductive JNum where
  | int (z : ℤ)
  | realOnly (q : ℚ)
  | garbage
deriving DecidableEq

/-- A JSON field value: a string (classified by its numeric content) or any
non-string JSON value. -/
inductive JVal where
  | str (c : JNum)
  | other
deriving DecidableEq

/-- The field lookup handed to construction (models `serde_json::Value.get`). -/
abbrev Value := List (String × JVal)

/-- Outcome of a Rust computation that may panic. -/
inductive Panic (α : Type) where
  | ok (a : α)
  | panic (msg : String)
deriving DecidableEq

def Panic.bind {α β : Type} : Panic α → (α → Panic β) → Panic β
  | .ok a, f => f a
  | .panic m, _ => .panic m

/-- `parse_i64` from the source: a missing field is a returned `Err`; a
non-string value or a string that does not parse as an integer panics
(`expect`).  The `expect` messages are the literal source strings (the source
uses `expect`, which does not interpolate). -/
def parse_i64 (data : Value) (field : String) : Panic (Except String ℤ) :=
  match data.lookup field with
  | none => .ok (.error ("Missing field: " ++ field))
  | some .other => .panic "{field} could not be converted to a str"
  | some (.str (.int z)) => .ok (.ok z)
  | some (.str _) => .panic "{field} could not be converted to an integer"

/-- `parse_f64` from the source: as `parse_i64` but any numeric string parses. -/
def parse_f64 (data : Value) (field : String) : Panic (Except String ℚ) :=
  match data.lookup field with
  | none => .ok (.error ("Missing field: " ++ field))
  | some .other => .panic "{field} could not be converted to a str"
  | some (.str (.int z)) => .ok (.ok (z : ℚ))
  | some (.str (.realOnly q)) => .ok (.ok q)
  | some (.str .garbage) => .panic "{field} could not be converted to a floating number"

/-- Rust `Result::unwrap`: an `Err` becomes a panic carrying its message. -/
def unwrapE {α : Type} : Panic (Except String α) → Panic α
  | .ok (.ok a) => .ok a
  | .ok (.error m) => .panic m
  | .panic m => .panic m

inductive Tail where
  | oneSided
  | twoSided
deriving DecidableEq

/-- `Tail::from_json` from the source: `parse_i64(data, "tail").unwrap()`
followed by a match on the integer. -/
def Tail.from_json (data : Value) : Panic (Option Tail) :=
  (unwrapE (parse_i64 data "tail")).bind fun tail =>
    .ok (if tail = 1 then some Tail.oneSided
         else if tail = 2 then some Tail.twoSided
         else none)

/-- The `TestKind` enum from the source, structural fields as parsed. -/
inductive TestKind where
  | oneSampleTTest
  | independentSamplesTTest
  | goodnessOfFitChisqTest (df : ℤ)
  | deviationFromZeroMultipleRegression (n_predictors : ℤ)
  | increaseMultipleRegression (rho : ℤ) (q : ℤ)
  | ANCOVA (k : ℤ) (q : ℤ) (p : ℤ)
  | oneWayANOVA (k : ℤ)
  | twoWayANOVA (k : ℤ) (q : ℤ)
  | betweenRepeatedANOVA (k : ℤ) (m : ℤ) (rho : ℚ)
  | withinRepeatedANOVA (k : ℤ) (m : ℤ) (rho : ℚ) (epsilon : ℚ)
  | withinBetweenRepeatedANOVA (k : ℤ) (m : ℤ) (rho : ℚ) (epsilon : ℚ)
deriving DecidableEq

/-- The epsilon lower-bound error message from the source. -/
def epsMsg : String := "lower bound of ε corresponds to 1 / (number of measurements - 1)"

/-- `TestKind::from_str` from the source.  Each `parse_*(..).unwrap()` is
`unwrapE`; the result type mirrors `Result<TestKind, String>` with panics on
top. -/
def TestKind.from_str (text : String) (data : Value) : Panic (Except String TestKind) :=
  match text with
  | "oneSampleTTest" => .ok (.ok .oneSampleTTest)
  | "independentSamplesTTest" => .ok (.ok .independentSamplesTTest)
  | "goodnessOfFitChisqTest" =>
      (unwrapE (parse_i64 data "df")).bind fun df =>
      .ok (.ok (.goodnessOfFitChisqTest df))
  | "deviationFromZeroMultipleRegression" =>
      (unwrapE (parse_i64 data "nPredictors")).bind fun n_predictors =>
      .ok (.ok (.deviationFromZeroMultipleRegression n_predictors))
  | "increaseMultipleRegression" =>
      (unwrapE (parse_i64 data "rho")).bind fun rho =>
      (unwrapE (parse_i64 data "q")).bind fun q =>
      .ok (.ok (.increaseMultipleRegression rho q))
  | "ANCOVA" =>
      (unwrapE (parse_i64 data "k")).bind fun k =>
      (unwrapE (parse_i64 data "q")).bind fun q =>
      (unwrapE (parse_i64 data "p")).bind fun p =>
      .ok (.ok (.ANCOVA k q p))
  | "oneWayANOVA" =>
      (unwrapE (parse_i64 data "k")).bind fun k =>
      .ok (.ok (.oneWayANOVA k))
  | "twoWayANOVA" =>
      (unwrapE (parse_i64 data "k")).bind fun k =>
      (unwrapE (parse_i64 data "q")).bind fun q =>
      .ok (.ok (.twoWayANOVA k q))
  | "betweenRepeatedANOVA" =>
      (unwrapE (parse_i64 data "k")).bind fun k =>
      (unwrapE (parse_i64 data "m")).bind fun m =>
      (unwrapE (parse_f64 data "rho")).bind fun rho =>
      .ok (.ok (.betweenRepeatedANOVA k m rho))
  | "withinRepeatedANOVA" =>
      (unwrapE (parse_i64 data "k")).bind fun k =>
      (unwrapE (parse_i64 data "m")).bind fun m =>
      (unwrapE (parse_f64 data "rho")).bind fun rho =>
      (unwrapE (parse_f64 data "epsilon")).bind fun epsilon =>
      -- f64 semantics of `epsilon < 1.0 / (m as f64 - 1.0)`: at m = 1 the
      -- source divides by zero, giving +inf, and every finite epsilon is
      -- below it, so the guard also fires at m = 1.
      if m = 1 ∨ epsilon < 1 / ((m : ℚ) - 1) then
        .ok (.error epsMsg)
      else
        .ok (.ok (.withinRepeatedANOVA k m rho epsilon))
  | "withinBetweenRepeatedANOVA" =>
      (unwrapE (parse_i64 data "k")).bind fun k =>
      (unwrapE (parse_i64 data "m")).bind fun m =>
      (unwrapE (parse_f64 data "rho")).bind fun rho =>
      (unwrapE (parse_f64 data "epsilon")).bind fun epsilon =>
      -- f64 semantics as above: the guard also fires at m = 1.
      if m = 1 ∨ epsilon < 1 / ((m : ℚ) - 1) then
        .ok (.error epsMsg)
      else
        .ok (.ok (.withinBetweenRepeatedANOVA k m rho epsilon))
  | _ => .ok (.error ("Unknown test: " ++ text))

/-- Distribution values of the `dist` crate: noncentral t, F and chi-squared
with their shape parameters; the central cases are the zero-noncentrality
instances. -/
inductive PDist where
  | noncentralT (v lambda : ℝ)
  | noncentralF (d1 d2 lambda : ℝ)
  | noncentralChisq (df lambda : ℝ)

/-- Modelled from the spec: the `dist` crate (not under src/) provides
`central_distribution`, the "same-family noncentrality-zeroing transform":
the central counterpart keeps the family and degrees of freedom and forces
the noncentrality to zero. -/
def PDist.central_distribution : PDist → PDist
  | .noncentralT v _ => .noncentralT v 0
  | .noncentralF d1 d2 _ => .noncentralF d1 d2 0
  | .noncentralChisq df _ => .noncentralChisq df 0

/-- The noncentrality parameter of a distribution value. -/
def PDist.lambda : PDist → ℝ
  | .noncentralT _ l => l
  | .noncentralF _ _ l => l
  | .noncentralChisq _ l => l

/-- The list of degrees-of-freedom parameters of a distribution value. -/
def PDist.dfs : PDist → List ℝ
  | .noncentralT v _ => [v]
  | .noncentralF d1 d2 _ => [d1, d2]
  | .noncentralChisq df _ => [df]

/-- A tag identifying the distribution family. -/
def PDist.familyTag : PDist → ℕ
  | .noncentralT _ _ => 0
  | .noncentralF _ _ _ => 1
  | .noncentralChisq _ _ => 2

/-- `TestKind::alternative_distribution` from the source, formula by formula. -/
noncomputable def TestKind.alternative_distribution (t : TestKind) (n es : ℝ) : PDist :=
  match t with
  | .oneSampleTTest => .noncentralT (n - 1) (Real.sqrt n * es)
  | .independentSamplesTTest => .noncentralT (n - 2) (Real.sqrt (n / 2) * es)
  | .deviationFromZeroMultipleRegression n_predictors =>
      .noncentralF (n_predictors : ℝ) (n - (n_predictors : ℝ) - 1) (es ^ 2 * n)
  | .goodnessOfFitChisqTest df => .noncentralChisq (df : ℝ) (es ^ 2 * n)
  | .increaseMultipleRegression rho q =>
      .noncentralF (q : ℝ) (n - (rho : ℝ) - 1) (es ^ 2 * n)
  | .ANCOVA k q p => .noncentralF (q : ℝ) (n - (k : ℝ) - (p : ℝ) - 1) (es ^ 2 * n)
  | .oneWayANOVA k => .noncentralF ((k : ℝ) - 1) (n - (k : ℝ)) (es ^ 2 * n)
  | .twoWayANOVA k q => .noncentralF (q : ℝ) (n - (k : ℝ)) (es ^ 2 * n)
  | .betweenRepeatedANOVA k m rho =>
      let u := (m : ℝ) / (1 + ((m : ℝ) - 1) * (rho : ℝ))
      .noncentralF ((k : ℝ) - 1) (n - (k : ℝ)) (es ^ 2 * u * n)
  | .withinRepeatedANOVA k m rho epsilon =>
      let u := (m : ℝ) / (1 - (rho : ℝ))
      .noncentralF (((m : ℝ) - 1) * (epsilon : ℝ))
        ((n - (k : ℝ)) * ((m : ℝ) - 1) * (epsilon : ℝ))
        (es ^ 2 * u * n * (epsilon : ℝ))
  | .withinBetweenRepeatedANOVA k m rho epsilon =>
      let u := (m : ℝ) / (1 - (rho : ℝ))
      .noncentralF (((k : ℝ) - 1) * ((m : ℝ) - 1) * (epsilon : ℝ))
        ((n - (k : ℝ)) * ((m : ℝ) - 1) * (epsilon : ℝ))
        (es ^ 2 * u * n * (epsilon : ℝ))

/-- `TestKind::null_distribution` from the source. -/
noncomputable def TestKind.null_distribution (t : TestKind) (n es : ℝ) : PDist :=
  (t.alternative_distribution n es).central_distribution

/-- The spec's tabulated alternative-distribution mapping, written from the
spec text of the null/alternative mapping table, to be compared with the
source's `alternative_distribution`. -/
noncomputable def altDistSpec (t : TestKind) (n es : ℝ) : PDist :=
  match t with
  | .oneSampleTTest => .noncentralT (n - 1) (Real.sqrt n * es)
  | .independentSamplesTTest => .noncentralT (n - 2) (Real.sqrt (n / 2) * es)
  | .deviationFromZeroMultipleRegression a =>
      .noncentralF (a : ℝ) (n - (a : ℝ) - 1) (es ^ 2 * n)
  | .goodnessOfFitChisqTest df => .noncentralChisq (df : ℝ) (es ^ 2 * n)
  | .increaseMultipleRegression rho q =>
      .noncentralF (q : ℝ) (n - (rho : ℝ) - 1) (es ^ 2 * n)
  | .ANCOVA k q p => .noncentralF (q : ℝ) (n - (k : ℝ) - (p : ℝ) - 1) (es ^ 2 * n)
  | .oneWayANOVA k => .noncentralF ((k : ℝ) - 1) (n - (k : ℝ)) (es ^ 2 * n)
  | .twoWayANOVA k q => .noncentralF (q : ℝ) (n - (k : ℝ)) (es ^ 2 * n)
  | .betweenRepeatedANOVA k m rho =>
      .noncentralF ((k : ℝ) - 1) (n - (k : ℝ))
        (es ^ 2 * ((m : ℝ) / (1 + ((m : ℝ) - 1) * (rho : ℝ))) * n)
  | .withinRepeatedANOVA k m rho epsilon =>
      .noncentralF (((m : ℝ) - 1) * (epsilon : ℝ))
        ((n - (k : ℝ)) * ((m : ℝ) - 1) * (epsilon : ℝ))
        (es ^ 2 * ((m : ℝ) / (1 - (rho : ℝ))) * n * (epsilon : ℝ))
  | .withinBetweenRepeatedANOVA k m rho epsilon =>
      .noncentralF (((k : ℝ) - 1) * ((m : ℝ) - 1) * (epsilon : ℝ))
        ((n - (k : ℝ)) * ((m : ℝ) - 1) * (epsilon : ℝ))
        (es ^ 2 * ((m : ℝ) / (1 - (rho : ℝ))) * n * (epsilon : ℝ))

/-- The cdf/quantile evaluators of the `dist` crate, as an abstract parameter:
every theorem below holds for any engine. -/
structure PDistEngine where
  cdf : PDist → ℝ → Bool → ℝ
  quantile : PDist → ℝ → Bool → ℝ

/-- The external `roots` crate's bracketing root finder, as an abstract
parameter: given a bracket and an objective it returns a root or `none`
(modelling both an `Err` return and a NaN result). -/
abbrev FindRoot := ℝ → ℝ → (ℝ → ℝ) → Option ℝ

/-- `TestKind::alpha` from the source. -/
noncomputable def TestKind.alpha (E : PDistEngine) (t : TestKind) (tail : Tail)
    (n power es : ℝ) : ℝ :=
  let d0 := t.null_distribution n es
  let d1 := t.alternative_distribution n es
  let critical_value := E.quantile d1 power false
  let right_tail := E.cdf d0 critical_value false
  match tail with
  | .oneSided => right_tail
  | .twoSided => 2 * right_tail

/-- `TestKind::power` from the source. -/
noncomputable def TestKind.power (E : PDistEngine) (t : TestKind) (tail : Tail)
    (n alpha es : ℝ) : ℝ :=
  let d0 := t.null_distribution n es
  let d1 := t.alternative_distribution n es
  let right_tail :=
    match tail with
    | .oneSided => alpha
    | .twoSided => alpha / 2
  let critical_value := E.quantile d0 right_tail false
  E.cdf d1 critical_value false

/-- The objective whose root `TestKind::n` searches:
`|n| self.alpha(tail, n, power, es) - alpha`. -/
noncomputable def nTarget (E : PDistEngine) (t : TestKind) (tail : Tail)
    (alpha power es : ℝ) : ℝ → ℝ :=
  fun x => TestKind.alpha E t tail x power es - alpha

/-- The objective whose root `TestKind::es` searches:
`|es| self.alpha(tail, n, power, es) - alpha`. -/
noncomputable def esTarget (E : PDistEngine) (t : TestKind) (tail : Tail)
    (n alpha power : ℝ) : ℝ → ℝ :=
  fun x => TestKind.alpha E t tail n power x - alpha

/-- The window loop of `TestKind::n`: `c` windows remain, the next window is
the `i`-th, spanning `[20 i, 20 i + 20]`.  A `none` from the root finder —
`root.unwrap_or(-111.0)` then the `-111.0`/NaN check — or a root equal to
`-111` skips to the next window; otherwise the root's ceiling is returned;
`-111` is returned when the windows are exhausted. -/
noncomputable def nFrom (fr : FindRoot) (f : ℝ → ℝ) : ℕ → ℕ → ℤ
  | 0, _ => -111
  | c + 1, i =>
      match fr ((20 * i : ℕ) : ℝ) ((20 * i + 20 : ℕ) : ℝ) f with
      | none => nFrom fr f c (i + 1)
      | some r => if r = -111 then nFrom fr f c (i + 1) else ⌈r⌉

/-- `TestKind::n` from the source: 50 windows of width 20 covering 0..1000 in
ascending order. -/
noncomputable def TestKind.n (E : PDistEngine) (fr : FindRoot) (t : TestKind)
    (tail : Tail) (alpha power es : ℝ) : ℤ :=
  nFrom fr (nTarget E t tail alpha power es) 50 0

/-- `TestKind::es` from the source: one regula-falsi call on the bracket
`[0.001, 8]`, `unwrap_or(-111.0)`. -/
noncomputable def TestKind.es (E : PDistEngine) (fr : FindRoot) (t : TestKind)
    (tail : Tail) (n alpha power : ℝ) : ℝ :=
  (fr 0.001 8 (esTarget E t tail n alpha power)).getD (-111)

/-- Window `j` of the `n` search yields a valid root: the root finder returns
a root on `[20 j, 20 j + 20]` that is not the `-111` sentinel. -/
def ValidWindow (fr : FindRoot) (f : ℝ → ℝ) (j : ℕ) : Prop :=
  ∃ r, fr ((20 * j : ℕ) : ℝ) ((20 * j + 20 : ℕ) : ℝ) f = some r ∧ r ≠ -111

/-- A root finder that always reports failure (used to instantiate theorems). -/
def noneRoot : FindRoot := fun _ _ _ => none

/-- A trivial distribution engine (used to instantiate theorems). -/
def zeroEngine : PDistEngine where
  cdf := fun _ _ _ => 0
  quantile := fun _ _ _ => 0

/-- One-step unfolding of `from_str` at the goodness-of-fit token. -/
lemma from_str_gof (data : Value) :
    TestKind.from_str "goodnessOfFitChisqTest" data
      = (unwrapE (parse_i64 data "df")).bind fun df =>
          .ok (.ok (.goodnessOfFitChisqTest df)) := rfl

/-- One-step unfolding of `from_str` at the increase-multiple-regression token. -/
lemma from_str_increase (data : Value) :
    TestKind.from_str "increaseMultipleRegression" data
      = (unwrapE (parse_i64 data "rho")).bind fun rho =>
        (unwrapE (parse_i64 data "q")).bind fun q =>
        .ok (.ok (.increaseMultipleRegression rho q)) := rfl

/-- One-step unfolding of `from_str` at the within-repeated-ANOVA token. -/
lemma from_str_within (data : Value) :
    TestKind.from_str "withinRepeatedANOVA" data
      = ((unwrapE (parse_i64 data "k")).bind fun k =>
         (unwrapE (parse_i64 data "m")).bind fun m =>
         (unwrapE (parse_f64 data "rho")).bind fun rho =>
         (unwrapE (parse_f64 data "epsilon")).bind fun epsilon =>
         if m = 1 ∨ epsilon < 1 / ((m : ℚ) - 1) then
           .ok (.error epsMsg)
         else
           .ok (.ok (.withinRepeatedANOVA k m rho epsilon))) := rfl

/-- One-step unfolding of `from_str` at the within-between token. -/
lemma from_str_withinBetween (data : Value) :
    TestKind.from_str "withinBetweenRepeatedANOVA" data
      = ((unwrapE (parse_i64 data "k")).bind fun k =>
         (unwrapE (parse_i64 data "m")).bind fun m =>
         (unwrapE (parse_f64 data "rho")).bind fun rho =>
         (unwrapE (parse_f64 data "epsilon")).bind fun epsilon =>
         if m = 1 ∨ epsilon < 1 / ((m : ℚ) - 1) then
           .ok (.error epsMsg)
         else
           .ok (.ok (.withinBetweenRepeatedANOVA k m rho epsilon))) := rfl

/-- The field lookup for the repeated-measures variants with all four fields
present and well formed. -/
def rmData (k m : ℤ) (rho epsilon : ℚ) : Value :=
  [("k", .str (.int k)), ("m", .str (.int m)),
   ("rho", .str (.realOnly rho)), ("epsilon", .str (.realOnly epsilon))]

lemma from_str_within_rmData (k m : ℤ) (rho epsilon : ℚ) :
    TestKind.from_str "withinRepeatedANOVA" (rmData k m rho epsilon)
      = if m = 1 ∨ epsilon < 1 / ((m : ℚ) - 1) then Panic.ok (Except.error epsMsg)
        else Panic.ok (Except.ok (TestKind.withinRepeatedANOVA k m rho epsilon)) := rfl

lemma from_str_withinBetween_rmData (k m : ℤ) (rho epsilon : ℚ) :
    TestKind.from_str "withinBetweenRepeatedANOVA" (rmData k m rho epsilon)
      = if m = 1 ∨ epsilon < 1 / ((m : ℚ) - 1) then Panic.ok (Except.error epsMsg)
        else Panic.ok (Except.ok (TestKind.withinBetweenRepeatedANOVA k m rho epsilon)) := rfl

/-- The required fields of each supported test-name token, in source parse
order, tagged with whether the field must parse as an integer (`true`) or
as a float (`false`). -/
def requiredFields : String → List (String × Bool)
  | "goodnessOfFitChisqTest" => [("df", true)]
  | "deviationFromZeroMultipleRegression" => [("nPredictors", true)]
  | "increaseMultipleRegression" => [("rho", true), ("q", true)]
  | "ANCOVA" => [("k", true), ("q", true), ("p", true)]
  | "oneWayANOVA" => [("k", true)]
  | "twoWayANOVA" => [("k", true), ("q", true)]
  | "betweenRepeatedANOVA" => [("k", true), ("m", true), ("rho", false)]
  | "withinRepeatedANOVA" =>
      [("k", true), ("m", true), ("rho", false), ("epsilon", false)]
  | "withinBetweenRepeatedANOVA" =>
      [("k", true), ("m", true), ("rho", false), ("epsilon", false)]
  | _ => []

/-- Field `nm` of `data` is present and parses at the required numeric type. -/
def fieldParses (data : Value) (nm : String) : Bool → Prop
  | true => ∃ z : ℤ, data.lookup nm = some (JVal.str (JNum.int z))
  | false => (∃ z : ℤ, data.lookup nm = some (JVal.str (JNum.int z))) ∨
             (∃ q : ℚ, data.lookup nm = some (JVal.str (JNum.realOnly q)))

/-- A bind that produced a non-panic outcome had a non-panic first stage. -/
lemma Panic.bind_eq_ok {α β : Type} {p : Panic α} {f : α → Panic β} {b : β}
    (h : p.bind f = Panic.ok b) : ∃ a, p = Panic.ok a ∧ f a = Panic.ok b := by
  cases p with
  | ok a => exact ⟨a, rfl, h⟩
  | panic m => exact Panic.noConfusion h

/-- A non-panicking integer field parse means the field was present as an
integer-valued string. -/
lemma unwrapE_parse_i64_ok {data : Value} {nm : String} {z : ℤ}
    (h : unwrapE (parse_i64 data nm) = Panic.ok z) :
    data.lookup nm = some (JVal.str (JNum.int z)) := by
  unfold parse_i64 at h
  rcases hl : data.lookup nm with _ | v
  · rw [hl] at h; simp [unwrapE] at h
  · rw [hl] at h
    cases v with
    | str c =>
      cases c with
      | int z0 => simp [unwrapE] at h; simp [h]
      | realOnly q => simp [unwrapE] at h
      | garbage => simp [unwrapE] at h
    | other => simp [unwrapE] at h

/-- A non-panicking float field parse means the field was present as a
numeric string. -/
lemma unwrapE_parse_f64_ok {data : Value} {nm : String} {q : ℚ}
    (h : unwrapE (parse_f64 data nm) = Panic.ok q) :
    (∃ z : ℤ, data.lookup nm = some (JVal.str (JNum.int z))) ∨
    (∃ q0 : ℚ, data.lookup nm = some (JVal.str (JNum.realOnly q0))) := by
  unfold parse_f64 at h
  rcases hl : data.lookup nm with _ | v
  · rw [hl] at h; simp [unwrapE] at h
  · rw [hl] at h
    cases v with
    | str c =>
      cases c with
      | int z0 => exact Or.inl ⟨z0, rfl⟩
      | realOnly q0 => exact Or.inr ⟨q0, rfl⟩
      | garbage => simp [unwrapE] at h
    | other => simp [unwrapE] at h

/-- Whenever `from_str` does not panic, every field required by the selected
token was present and parsed at its required numeric type. -/
lemma from_str_ok_fields {text : String} {data : Value} {v : Except String TestKind}
    (h : TestKind.from_str text data = Panic.ok v) :
    ∀ nm b, (nm, b) ∈ requiredFields text → fieldParses data nm b := by
  unfold TestKind.from_str at h
  split at h
  · intro nm b hmem
    have hr : requiredFields "oneSampleTTest" = [] := rfl
    rw [hr] at hmem; simp at hmem
  · intro nm b hmem
    have hr : requiredFields "independentSamplesTTest" = [] := rfl
    rw [hr] at hmem; simp at hmem
  · obtain ⟨df, hdf, h⟩ := Panic.bind_eq_ok h
    intro nm b hmem
    have hr : requiredFields "goodnessOfFitChisqTest" = [("df", true)] := rfl
    rw [hr] at hmem
    simp only [List.mem_singleton, Prod.mk.injEq] at hmem
    obtain ⟨rfl, rfl⟩ := hmem
    exact ⟨df, unwrapE_parse_i64_ok hdf⟩
  · obtain ⟨np, hnp, h⟩ := Panic.bind_eq_ok h
    intro nm b hmem
    have hr : requiredFields "deviationFromZeroMultipleRegression"
        = [("nPredictors", true)] := rfl
    rw [hr] at hmem
    simp only [List.mem_singleton, Prod.mk.injEq] at hmem
    obtain ⟨rfl, rfl⟩ := hmem
    exact ⟨np, unwrapE_parse_i64_ok hnp⟩
  · obtain ⟨r, hrho, h⟩ := Panic.bind_eq_ok h
    obtain ⟨q, hq, h⟩ := Panic.bind_eq_ok h
    intro nm b hmem
    have hr : requiredFields "increaseMultipleRegression"
        = [("rho", true), ("q", true)] := rfl
    rw [hr] at hmem
    simp only [List.mem_cons, List.mem_singleton, Prod.mk.injEq,
      List.not_mem_nil, or_false] at hmem
    rcases hmem with ⟨rfl, rfl⟩ | ⟨rfl, rfl⟩
    · exact ⟨r, unwrapE_parse_i64_ok hrho⟩
    · exact ⟨q, unwrapE_parse_i64_ok hq⟩
  · obtain ⟨k, hk, h⟩ := Panic.bind_eq_ok h
    obtain ⟨q, hq, h⟩ := Panic.bind_eq_ok h
    obtain ⟨p, hp, h⟩ := Panic.bind_eq_ok h
    intro nm b hmem
    have hr : requiredFields "ANCOVA"
        = [("k", true), ("q", true), ("p", true)] := rfl
    rw [hr] at hmem
    simp only [List.mem_cons, List.mem_singleton, Prod.mk.injEq,
      List.not_mem_nil, or_false] at hmem
    rcases hmem with ⟨rfl, rfl⟩ | ⟨rfl, rfl⟩ | ⟨rfl, rfl⟩
    · exact ⟨k, unwrapE_parse_i64_ok hk⟩
    · exact ⟨q, unwrapE_parse_i64_ok hq⟩
    · exact ⟨p, unwrapE_parse_i64_ok hp⟩
  · obtain ⟨k, hk, h⟩ := Panic.bind_eq_ok h
    intro nm b hmem
    have hr : requiredFields "oneWayANOVA" = [("k", true)] := rfl
    rw [hr] at hmem
    simp only [List.mem_singleton, Prod.mk.injEq] at hmem
    obtain ⟨rfl, rfl⟩ := hmem
    exact ⟨k, unwrapE_parse_i64_ok hk⟩
  · obtain ⟨k, hk, h⟩ := Panic.bind_eq_ok h
    obtain ⟨q, hq, h⟩ := Panic.bind_eq_ok h
    intro nm b hmem
    have hr : requiredFields "twoWayANOVA" = [("k", true), ("q", true)] := rfl
    rw [hr] at hmem
    simp only [List.mem_cons, List.mem_singleton, Prod.mk.injEq,
      List.not_mem_nil, or_false] at hmem
    rcases hmem with ⟨rfl, rfl⟩ | ⟨rfl, rfl⟩
    · exact ⟨k, unwrapE_parse_i64_ok hk⟩
    · exact ⟨q, unwrapE_parse_i64_ok hq⟩
  · obtain ⟨k, hk, h⟩ := Panic.bind_eq_ok h
    obtain ⟨m, hm, h⟩ := Panic.bind_eq_ok h
    obtain ⟨r, hrho, h⟩ := Panic.bind_eq_ok h
    intro nm b hmem
    have hr : requiredFields "betweenRepeatedANOVA"
        = [("k", true), ("m", true), ("rho", false)] := rfl
    rw [hr] at hmem
    simp only [List.mem_cons, List.mem_singleton, Prod.mk.injEq,
      List.not_mem_nil, or_false] at hmem
    rcases hmem with ⟨rfl, rfl⟩ | ⟨rfl, rfl⟩ | ⟨rfl, rfl⟩
    · exact ⟨k, unwrapE_parse_i64_ok hk⟩
    · exact ⟨m, unwrapE_parse_i64_ok hm⟩
    · exact unwrapE_parse_f64_ok hrho
  · obtain ⟨k, hk, h⟩ := Panic.bind_eq_ok h
    obtain ⟨m, hm, h⟩ := Panic.bind_eq_ok h
    obtain ⟨r, hrho, h⟩ := Panic.bind_eq_ok h
    obtain ⟨e, heps, h⟩ := Panic.bind_eq_ok h
    intro nm b hmem
    have hr : requiredFields "withinRepeatedANOVA"
        = [("k", true), ("m", true), ("rho", false), ("epsilon", false)] := rfl
    rw [hr] at hmem
    simp only [List.mem_cons, List.mem_singleton, Prod.mk.injEq,
      List.not_mem_nil, or_false] at hmem
    rcases hmem with ⟨rfl, rfl⟩ | ⟨rfl, rfl⟩ | ⟨rfl, rfl⟩ | ⟨rfl, rfl⟩
    · exact ⟨k, unwrapE_parse_i64_ok hk⟩
    · exact ⟨m, unwrapE_parse_i64_ok hm⟩
    · exact unwrapE_parse_f64_ok hrho
    · exact unwrapE_parse_f64_ok heps
  · obtain ⟨k, hk, h⟩ := Panic.bind_eq_ok h
    obtain ⟨m, hm, h⟩ := Panic.bind_eq_ok h
    obtain ⟨r, hrho, h⟩ := Panic.bind_eq_ok h
    obtain ⟨e, heps, h⟩ := Panic.bind_eq_ok h
    intro nm b hmem
    have hr : requiredFields "withinBetweenRepeatedANOVA"
        = [("k", true), ("m", true), ("rho", false), ("epsilon", false)] := rfl
    rw [hr] at hmem
    simp only [List.mem_cons, List.mem_singleton, Prod.mk.injEq,
      List.not_mem_nil, or_false] at hmem
    rcases hmem with ⟨rfl, rfl⟩ | ⟨rfl, rfl⟩ | ⟨rfl, rfl⟩ | ⟨rfl, rfl⟩
    · exact ⟨k, unwrapE_parse_i64_ok hk⟩
    · exact ⟨m, unwrapE_parse_i64_ok hm⟩
    · exact unwrapE_parse_f64_ok hrho
    · exact unwrapE_parse_f64_ok heps
  · rename_i hne1 hne2 hne3 hne4 hne5 hne6 hne7 hne8 hne9 hne10 hne11
    intro nm b hmem
    unfold requiredFields at hmem
    split at hmem <;> simp_all

/-- C1: for every `TestKind` variant and all inputs `n` and `es`, the source's
alternative distribution has exactly the family and parameters tabulated in
the spec, and the null distribution is the alternative's central counterpart:
same family, same degrees of freedom, noncentrality zero. -/
theorem alternative_null_distribution_spec (t : TestKind) (n es : ℝ) :
    t.alternative_distribution n es = altDistSpec t n es ∧
    t.null_distribution n es = (t.alternative_distribution n es).central_distribution ∧
    (t.null_distribution n es).familyTag = (t.alternative_distribution n es).familyTag ∧
    (t.null_distribution n es).dfs = (t.alternative_distribution n es).dfs ∧
    (t.null_distribution n es).lambda = 0 := by
  cases t <;> exact ⟨rfl, rfl, rfl, rfl, rfl⟩

/-- C6: for every design, n, power and es, two-sided alpha is exactly twice
one-sided alpha on the same inputs, for any cdf/quantile engine. -/
theorem alpha_two_sided_doubles (E : PDistEngine) (t : TestKind) (n power es : ℝ) :
    TestKind.alpha E t Tail.twoSided n power es
      = 2 * TestKind.alpha E t Tail.oneSided n power es := rfl

/-- C8: the tail-selection boundary maps integer 1 to OneSided, 2 to TwoSided,
and any other integer to no valid Tail. -/
theorem tail_from_json_integer_mapping (z : ℤ) :
    Tail.from_json [("tail", JVal.str (JNum.int z))]
      = Panic.ok (if z = 1 then some Tail.oneSided
                  else if z = 2 then some Tail.twoSided else none) := rfl

/-- C10: `Tail::from_json` panics when the "tail" field is absent, when its
value is not a string, or when the string does not parse as an integer; it
returns no Tail (without panicking) exactly when the field parses to an
integer other than 1 or 2. -/
theorem tail_from_json_panic_characterization (data : Value) :
    (data.lookup "tail" = none →
      Tail.from_json data = Panic.panic "Missing field: tail") ∧
    (data.lookup "tail" = some JVal.other →
      Tail.from_json data = Panic.panic "{field} could not be converted to a str") ∧
    (∀ q : ℚ, data.lookup "tail" = some (JVal.str (JNum.realOnly q)) →
      Tail.from_json data = Panic.panic "{field} could not be converted to an integer") ∧
    (data.lookup "tail" = some (JVal.str JNum.garbage) →
      Tail.from_json data = Panic.panic "{field} could not be converted to an integer") ∧
    (Tail.from_json data = Panic.ok none ↔
      ∃ z : ℤ, data.lookup "tail" = some (JVal.str (JNum.int z)) ∧ z ≠ 1 ∧ z ≠ 2) := by
  refine ⟨?_, ?_, ?_, ?_, ?_, ?_⟩
  · intro h; simp [Tail.from_json, parse_i64, unwrapE, Panic.bind, h]
  · intro h; simp [Tail.from_json, parse_i64, unwrapE, Panic.bind, h]
  · intro q h; simp [Tail.from_json, parse_i64, unwrapE, Panic.bind, h]
  · intro h; simp [Tail.from_json, parse_i64, unwrapE, Panic.bind, h]
  · intro h
    rcases hl : data.lookup "tail" with _ | v
    · simp [Tail.from_json, parse_i64, unwrapE, Panic.bind, hl] at h
    · cases v with
      | other => simp [Tail.from_json, parse_i64, unwrapE, Panic.bind, hl] at h
      | str c =>
        cases c with
        | int z =>
          simp only [Tail.from_json, parse_i64, unwrapE, Panic.bind, hl,
            Panic.ok.injEq] at h
          by_cases h1 : z = 1
          · rw [if_pos h1] at h; exact absurd h (by simp)
          · rw [if_neg h1] at h
            by_cases h2 : z = 2
            · rw [if_pos h2] at h; exact absurd h (by simp)
            · exact ⟨z, rfl, h1, h2⟩
        | realOnly q =>
          simp [Tail.from_json, parse_i64, unwrapE, Panic.bind, hl] at h
        | garbage =>
          simp [Tail.from_json, parse_i64, unwrapE, Panic.bind, hl] at h
  · rintro ⟨z, hl, h1, h2⟩
    simp [Tail.from_json, parse_i64, unwrapE, Panic.bind, hl, h1, h2]

/-- C10 witness: a lookup with no "tail" field makes `Tail::from_json` panic. -/
theorem tail_from_json_panic_characterization_witness :
    Tail.from_json ([] : Value) = Panic.panic "Missing field: tail" :=
  (tail_from_json_panic_characterization []).1 rfl

/-- C5: for m ≠ 1, constructing WithinRepeatedANOVA or
WithinBetweenRepeatedANOVA with epsilon below 1/(m-1) fails with the
constraint-violation message, and construction with epsilon at or above the
bound succeeds; at m = 1 the source's f64 bound 1.0/0.0 is +inf, so every
epsilon is rejected. -/
theorem epsilon_bound_construction (k m : ℤ) (rho epsilon : ℚ) (hm : m ≠ 1) :
    (epsilon < 1 / ((m : ℚ) - 1) →
      TestKind.from_str "withinRepeatedANOVA" (rmData k m rho epsilon)
        = Panic.ok (Except.error epsMsg) ∧
      TestKind.from_str "withinBetweenRepeatedANOVA" (rmData k m rho epsilon)
        = Panic.ok (Except.error epsMsg)) ∧
    (1 / ((m : ℚ) - 1) ≤ epsilon →
      TestKind.from_str "withinRepeatedANOVA" (rmData k m rho epsilon)
        = Panic.ok (Except.ok (TestKind.withinRepeatedANOVA k m rho epsilon)) ∧
      TestKind.from_str "withinBetweenRepeatedANOVA" (rmData k m rho epsilon)
        = Panic.ok (Except.ok (TestKind.withinBetweenRepeatedANOVA k m rho epsilon))) ∧
    (∀ e1 : ℚ, TestKind.from_str "withinRepeatedANOVA" (rmData k 1 rho e1)
        = Panic.ok (Except.error epsMsg)) := by
  refine ⟨fun h => ⟨?_, ?_⟩, fun h => ⟨?_, ?_⟩, fun e1 => ?_⟩
  · rw [from_str_within_rmData, if_pos (Or.inr h)]
  · rw [from_str_withinBetween_rmData, if_pos (Or.inr h)]
  · rw [from_str_within_rmData,
      if_neg (by push_neg; exact ⟨hm, h⟩)]
  · rw [from_str_withinBetween_rmData,
      if_neg (by push_neg; exact ⟨hm, h⟩)]
  · rw [from_str_within_rmData, if_pos (Or.inl rfl)]

/-- C5 witness: with m = 4, epsilon = 0.1 (below 1/3) fails with the
constraint message and epsilon = 0.4 succeeds. -/
theorem epsilon_bound_construction_witness :
    ((1 : ℚ) / 10 < 1 / (((4 : ℤ) : ℚ) - 1) ∧
      TestKind.from_str "withinRepeatedANOVA" (rmData 4 4 (1 / 2) (1 / 10))
        = Panic.ok (Except.error epsMsg)) ∧
    (1 / (((4 : ℤ) : ℚ) - 1) ≤ (2 : ℚ) / 5 ∧
      TestKind.from_str "withinRepeatedANOVA" (rmData 4 4 (1 / 2) (2 / 5))
        = Panic.ok (Except.ok (TestKind.withinRepeatedANOVA 4 4 (1 / 2) (2 / 5)))) := by
  constructor
  · exact ⟨by norm_num,
      ((epsilon_bound_construction 4 4 (1 / 2) (1 / 10) (by decide)).1 (by norm_num)).1⟩
  · exact ⟨by norm_num,
      ((epsilon_bound_construction 4 4 (1 / 2) (2 / 5) (by decide)).2.1 (by norm_num)).1⟩

/-- C2 counterexample: constructing a goodness-of-fit design with the required
"df" field absent does not return a MissingField error to the caller — the
constructed error string is immediately unwrapped, so the call panics. -/
theorem missing_field_panics_counterexample :
    TestKind.from_str "goodnessOfFitChisqTest" ([] : Value)
      = Panic.panic "Missing field: df" ∧
    Panic.panic "Missing field: df"
      ≠ (Panic.ok (Except.error "Missing field: df") : Panic (Except String TestKind)) :=
  ⟨rfl, by simp⟩

/-- A non-panicking `from_str` returns a typed error only for an unknown
test name or for the epsilon constraint violation. -/
lemma from_str_error_only {text : String} {data : Value} {e : String}
    (h : TestKind.from_str text data = Panic.ok (Except.error e)) :
    e = "Unknown test: " ++ text ∨ e = epsMsg := by
  unfold TestKind.from_str at h
  split at h
  · exact absurd h (by simp)
  · exact absurd h (by simp)
  · obtain ⟨a, ha, h⟩ := Panic.bind_eq_ok h
    exact absurd h (by simp)
  · obtain ⟨a, ha, h⟩ := Panic.bind_eq_ok h
    exact absurd h (by simp)
  · obtain ⟨a, ha, h⟩ := Panic.bind_eq_ok h
    obtain ⟨b, hb, h⟩ := Panic.bind_eq_ok h
    exact absurd h (by simp)
  · obtain ⟨a, ha, h⟩ := Panic.bind_eq_ok h
    obtain ⟨b, hb, h⟩ := Panic.bind_eq_ok h
    obtain ⟨c, hc, h⟩ := Panic.bind_eq_ok h
    exact absurd h (by simp)
  · obtain ⟨a, ha, h⟩ := Panic.bind_eq_ok h
    exact absurd h (by simp)
  · obtain ⟨a, ha, h⟩ := Panic.bind_eq_ok h
    obtain ⟨b, hb, h⟩ := Panic.bind_eq_ok h
    exact absurd h (by simp)
  · obtain ⟨a, ha, h⟩ := Panic.bind_eq_ok h
    obtain ⟨b, hb, h⟩ := Panic.bind_eq_ok h
    obtain ⟨c, hc, h⟩ := Panic.bind_eq_ok h
    exact absurd h (by simp)
  · obtain ⟨a, ha, h⟩ := Panic.bind_eq_ok h
    obtain ⟨b, hb, h⟩ := Panic.bind_eq_ok h
    obtain ⟨c, hc, h⟩ := Panic.bind_eq_ok h
    obtain ⟨d, hd, h⟩ := Panic.bind_eq_ok h
    split_ifs at h with hg
    · right
      simp only [Panic.ok.injEq, Except.error.injEq] at h
      exact h.symm
    · exact absurd h (by simp)
  · obtain ⟨a, ha, h⟩ := Panic.bind_eq_ok h
    obtain ⟨b, hb, h⟩ := Panic.bind_eq_ok h
    obtain ⟨c, hc, h⟩ := Panic.bind_eq_ok h
    obtain ⟨d, hd, h⟩ := Panic.bind_eq_ok h
    split_ifs at h with hg
    · right
      simp only [Panic.ok.injEq, Except.error.injEq] at h
      exact h.symm
    · exact absurd h (by simp)
  · left
    simp only [Panic.ok.injEq, Except.error.injEq] at h
    exact h.symm

/-- C2 (amended): for every supported test-name token, a required field that
is absent or whose value does not parse at its required numeric type makes
construction panic (the parsers' typed errors are unwrapped and the
conversion failures call expect) instead of returning a typed error; a typed
error is returned to the caller only for an unknown test name ("Unknown
test: name") or for the epsilon constraint violation. -/
theorem construction_error_panic_paths :
    (∀ (text : String) (data : Value) (e : String),
      TestKind.from_str text data = Panic.ok (Except.error e) →
      e = "Unknown test: " ++ text ∨ e = epsMsg) ∧
    (∀ (text : String) (data : Value),
      (∃ nm b, (nm, b) ∈ requiredFields text ∧ ¬ fieldParses data nm b) →
      ∃ msg, TestKind.from_str text data = Panic.panic msg) := by
  constructor
  · intro text data e h
    exact from_str_error_only h
  · rintro text data ⟨nm, b, hmem, hnp⟩
    cases hres : TestKind.from_str text data with
    | panic msg => exact ⟨msg, rfl⟩
    | ok v => exact absurd (from_str_ok_fields hres nm b hmem) hnp

/-- C2 witness: ANCOVA with its required "q" field absent panics. -/
theorem construction_error_panic_paths_witness :
    ∃ msg, TestKind.from_str "ANCOVA" ([("k", JVal.str (JNum.int 3))] : Value)
      = Panic.panic msg :=
  construction_error_panic_paths.2 "ANCOVA" [("k", JVal.str (JNum.int 3))]
    ⟨"q", true, by decide, by
      simp only [fieldParses]
      rintro ⟨z, hz⟩
      exact Option.noConfusion hz⟩

/-- C7 counterexample: `from_str` happily constructs a OneWayANOVA with
k = 0, violating the spec's structural constraint k ≥ 2. -/
theorem one_way_anova_no_k_validation_counterexample :
    TestKind.from_str "oneWayANOVA" ([("k", JVal.str (JNum.int 0))] : Value)
      = Panic.ok (Except.ok (TestKind.oneWayANOVA 0)) ∧ ¬ (2 ≤ (0 : ℤ)) :=
  ⟨rfl, by decide⟩

/-- C7 (amended): successful construction enforces only the epsilon lower
bound of the two within-repeated-measures variants: every other
field-carrying variant accepts any parsed field values (in particular
OneWayANOVA accepts any integer k and GoodnessOfFitChisqTest any integer
df), while every successful WithinRepeatedANOVA or
WithinBetweenRepeatedANOVA construction satisfies m ≠ 1 and
epsilon ≥ 1/(m-1). -/
theorem construction_validates_only_epsilon (df np r q k p m z : ℤ) (rho : ℚ) :
    (TestKind.from_str "oneWayANOVA" ([("k", JVal.str (JNum.int z))] : Value)
      = Panic.ok (Except.ok (TestKind.oneWayANOVA z))) ∧
    (TestKind.from_str "goodnessOfFitChisqTest"
        ([("df", JVal.str (JNum.int df))] : Value)
      = Panic.ok (Except.ok (TestKind.goodnessOfFitChisqTest df))) ∧
    (TestKind.from_str "deviationFromZeroMultipleRegression"
        ([("nPredictors", JVal.str (JNum.int np))] : Value)
      = Panic.ok (Except.ok (TestKind.deviationFromZeroMultipleRegression np))) ∧
    (TestKind.from_str "increaseMultipleRegression"
        ([("rho", JVal.str (JNum.int r)), ("q", JVal.str (JNum.int q))] : Value)
      = Panic.ok (Except.ok (TestKind.increaseMultipleRegression r q))) ∧
    (TestKind.from_str "ANCOVA"
        ([("k", JVal.str (JNum.int k)), ("q", JVal.str (JNum.int q)),
          ("p", JVal.str (JNum.int p))] : Value)
      = Panic.ok (Except.ok (TestKind.ANCOVA k q p))) ∧
    (TestKind.from_str "twoWayANOVA"
        ([("k", JVal.str (JNum.int k)), ("q", JVal.str (JNum.int q))] : Value)
      = Panic.ok (Except.ok (TestKind.twoWayANOVA k q))) ∧
    (TestKind.from_str "betweenRepeatedANOVA"
        ([("k", JVal.str (JNum.int k)), ("m", JVal.str (JNum.int m)),
          ("rho", JVal.str (JNum.realOnly rho))] : Value)
      = Panic.ok (Except.ok (TestKind.betweenRepeatedANOVA k m rho))) ∧
    (∀ (data : Value) (k1 m1 : ℤ) (rho1 epsilon1 : ℚ),
      TestKind.from_str "withinRepeatedANOVA" data
        = Panic.ok (Except.ok (TestKind.withinRepeatedANOVA k1 m1 rho1 epsilon1)) →
      m1 ≠ 1 ∧ 1 / ((m1 : ℚ) - 1) ≤ epsilon1) ∧
    (∀ (data : Value) (k1 m1 : ℤ) (rho1 epsilon1 : ℚ),
      TestKind.from_str "withinBetweenRepeatedANOVA" data
        = Panic.ok (Except.ok (TestKind.withinBetweenRepeatedANOVA k1 m1 rho1 epsilon1)) →
      m1 ≠ 1 ∧ 1 / ((m1 : ℚ) - 1) ≤ epsilon1) := by
  refine ⟨rfl, rfl, rfl, rfl, rfl, rfl, rfl, ?_, ?_⟩
  · intro data k1 m1 rho1 epsilon1 h
    rw [from_str_within] at h
    obtain ⟨k2, hk, h⟩ := Panic.bind_eq_ok h
    obtain ⟨m2, hm, h⟩ := Panic.bind_eq_ok h
    obtain ⟨r2, hrho, h⟩ := Panic.bind_eq_ok h
    obtain ⟨e2, heps, h⟩ := Panic.bind_eq_ok h
    by_cases hg : m2 = 1 ∨ e2 < 1 / ((m2 : ℚ) - 1)
    · rw [if_pos hg] at h
      exact absurd h (by simp)
    · rw [if_neg hg] at h
      push_neg at hg
      simp only [Panic.ok.injEq, Except.ok.injEq,
        TestKind.withinRepeatedANOVA.injEq] at h
      obtain ⟨-, hm1, -, he1⟩ := h
      rw [← hm1, ← he1]
      exact ⟨hg.1, hg.2⟩
  · intro data k1 m1 rho1 epsilon1 h
    rw [from_str_withinBetween] at h
    obtain ⟨k2, hk, h⟩ := Panic.bind_eq_ok h
    obtain ⟨m2, hm, h⟩ := Panic.bind_eq_ok h
    obtain ⟨r2, hrho, h⟩ := Panic.bind_eq_ok h
    obtain ⟨e2, heps, h⟩ := Panic.bind_eq_ok h
    by_cases hg : m2 = 1 ∨ e2 < 1 / ((m2 : ℚ) - 1)
    · rw [if_pos hg] at h
      exact absurd h (by simp)
    · rw [if_neg hg] at h
      push_neg at hg
      simp only [Panic.ok.injEq, Except.ok.injEq,
        TestKind.withinBetweenRepeatedANOVA.injEq] at h
      obtain ⟨-, hm1, -, he1⟩ := h
      rw [← hm1, ← he1]
      exact ⟨hg.1, hg.2⟩

/-- C7 witness: the epsilon invariant extracted from a concrete successful
construction (m = 4, epsilon = 0.4). -/
theorem construction_validates_only_epsilon_witness :
    (4 : ℤ) ≠ 1 ∧ (1 : ℚ) / (((4 : ℤ) : ℚ) - 1) ≤ 2 / 5 :=
  (construction_validates_only_epsilon 1 1 1 1 1 1 1 0 0).2.2.2.2.2.2.2.1
    (rmData 4 4 (1 / 2) (2 / 5)) 4 4 (1 / 2) (2 / 5)
    (by rw [from_str_within_rmData]; norm_num)

/-- C4 counterexample: when the bracket search finds no root, `es` does
return a numeric value — the in-band sentinel -111.0 — rather than an
outcome distinct from every numeric result. -/
theorem es_failure_numeric_sentinel_counterexample :
    TestKind.es zeroEngine noneRoot TestKind.oneSampleTTest Tail.oneSided 50 0.99 0.95
      = -111 := rfl

/-- C4 (amended): when the root finder yields no root of
alpha(tail, n, power, es) - target_alpha inside the fixed bracket
[0.001, 8], the es operation returns the failure sentinel -111.0. -/
theorem es_no_root_returns_sentinel (E : PDistEngine) (fr : FindRoot) (t : TestKind)
    (tail : Tail) (n alpha power : ℝ)
    (h : fr 0.001 8 (esTarget E t tail n alpha power) = none) :
    TestKind.es E fr t tail n alpha power = -111 := by
  unfold TestKind.es
  rw [h]
  rfl

/-- C4 witness: the sentinel is produced at concrete inputs once the root
finder reports no root on the bracket. -/
theorem es_no_root_returns_sentinel_witness :
    TestKind.es zeroEngine noneRoot TestKind.oneSampleTTest Tail.twoSided 50 0.05 0.95
      = -111 :=
  es_no_root_returns_sentinel zeroEngine noneRoot TestKind.oneSampleTTest
    Tail.twoSided 50 0.05 0.95 rfl

/-- If every remaining window is invalid, the window loop returns -111. -/
lemma nFrom_of_none (fr : FindRoot) (f : ℝ → ℝ) :
    ∀ (c i : ℕ), (∀ j, i ≤ j → j < i + c → ¬ ValidWindow fr f j) →
      nFrom fr f c i = -111 := by
  intro c
  induction c with
  | zero => intro i _; rfl
  | succ c ih =>
    intro i h
    cases hfr : fr ((20 * i : ℕ) : ℝ) ((20 * i + 20 : ℕ) : ℝ) f with
    | none =>
      simp only [nFrom, hfr]
      exact ih (i + 1) (fun j h1 h2 => h j (by omega) (by omega))
    | some r =>
      have hr : r = -111 := by
        by_contra hne
        exact h i le_rfl (by omega) ⟨r, hfr, hne⟩
      subst hr
      simp only [nFrom, hfr, if_pos]
      exact ih (i + 1) (fun j h1 h2 => h j (by omega) (by omega))

/-- The window loop returns the ceiling of the root found in the first valid
window among those remaining. -/
lemma nFrom_first_valid (fr : FindRoot) (f : ℝ → ℝ) :
    ∀ (c i j : ℕ), i ≤ j → j < i + c → ValidWindow fr f j →
      (∀ j1, i ≤ j1 → j1 < j → ¬ ValidWindow fr f j1) →
      ∃ r, fr ((20 * j : ℕ) : ℝ) ((20 * j + 20 : ℕ) : ℝ) f = some r ∧ r ≠ -111 ∧
        nFrom fr f c i = ⌈r⌉ := by
  intro c
  induction c with
  | zero => intro i j h1 h2 _ _; omega
  | succ c ih =>
    intro i j h1 h2 hv hmin
    rcases eq_or_lt_of_le h1 with rfl | hlt
    · obtain ⟨r, hfr, hne⟩ := hv
      refine ⟨r, hfr, hne, ?_⟩
      simp only [nFrom, hfr, if_neg hne]
    · have hni : ¬ ValidWindow fr f i := hmin i le_rfl hlt
      have step : nFrom fr f (c + 1) i = nFrom fr f c (i + 1) := by
        cases hfr : fr ((20 * i : ℕ) : ℝ) ((20 * i + 20 : ℕ) : ℝ) f with
        | none => simp only [nFrom, hfr]
        | some r0 =>
          have hr0 : r0 = -111 := by
            by_contra hne0
            exact hni ⟨r0, hfr, hne0⟩
          subst hr0
          simp only [nFrom, hfr, if_pos]
      obtain ⟨r, ha, hb, hc⟩ :=
        ih (i + 1) j (by omega) (by omega) hv (fun j1 hj1 hj2 => hmin j1 (by omega) hj2)
      exact ⟨r, ha, hb, by rw [step]; exact hc⟩

/-- C3: the `n` operation tries the fifty width-20 windows covering 0 to 1000
in ascending order against the objective alpha(tail, n, power, es) - alpha;
it returns the ceiling of the root found in the first window where the root
finder yields a valid (non-sentinel) root, and the failure value -111 when no
window yields one. -/
theorem n_windowed_search_first_root (E : PDistEngine) (fr : FindRoot) (t : TestKind)
    (tail : Tail) (alpha power es : ℝ) :
    (∃ j, j < 50 ∧
      (∀ j1, j1 < j → ¬ ValidWindow fr (nTarget E t tail alpha power es) j1) ∧
      ∃ r, fr ((20 * j : ℕ) : ℝ) ((20 * j + 20 : ℕ) : ℝ)
          (nTarget E t tail alpha power es) = some r ∧ r ≠ -111 ∧
        TestKind.n E fr t tail alpha power es = ⌈r⌉) ∨
    ((∀ j, j < 50 → ¬ ValidWindow fr (nTarget E t tail alpha power es) j) ∧
      TestKind.n E fr t tail alpha power es = -111) := by
  classical
  by_cases h : ∃ j, j < 50 ∧ ValidWindow fr (nTarget E t tail alpha power es) j
  · left
    have hj0 := Nat.find_spec h
    have hmin : ∀ j1, j1 < Nat.find h →
        ¬ ValidWindow fr (nTarget E t tail alpha power es) j1 := by
      intro j1 h1 hv1
      exact Nat.find_min h h1 ⟨by omega, hv1⟩
    obtain ⟨r, h1, h2, h3⟩ :=
      nFrom_first_valid fr (nTarget E t tail alpha power es) 50 0 (Nat.find h)
        (Nat.zero_le _) (by omega) hj0.2 (fun j1 _ hb => hmin j1 hb)
    exact ⟨Nat.find h, hj0.1, hmin, r, h1, h2, h3⟩
  · right
    push_neg at h
    refine ⟨h, ?_⟩
    exact nFrom_of_none fr (nTarget E t tail alpha power es) 50 0
      (fun j _ h2 => h j (by omega))

/-- Under a root finder that only reports roots inside its bracket, the window
loop returns either the sentinel or a ceiling inside [0, 1000]. -/
lemma nFrom_bounds (fr : FindRoot) (f : ℝ → ℝ)
    (hbr : ∀ lo hi g r, fr lo hi g = some r → lo ≤ r ∧ r ≤ hi) :
    ∀ (c i : ℕ), 20 * (i + c) ≤ 1000 →
      nFrom fr f c i = -111 ∨
        (0 ≤ nFrom fr f c i ∧ nFrom fr f c i ≤ 1000) := by
  intro c
  induction c with
  | zero => intro i _; left; rfl
  | succ c ih =>
    intro i hle
    cases hfr : fr ((20 * i : ℕ) : ℝ) ((20 * i + 20 : ℕ) : ℝ) f with
    | none =>
      simpa only [nFrom, hfr] using ih (i + 1) (by omega)
    | some r =>
      by_cases hr : r = -111
      · subst hr
        simpa only [nFrom, hfr, if_pos] using ih (i + 1) (by omega)
      · right
        have hb := hbr _ _ _ _ hfr
        have h0 : (0 : ℝ) ≤ r := le_trans (by positivity) hb.1
        have hn : (20 * i + 20 : ℕ) ≤ 1000 := by omega
        have h1000 : r ≤ ((1000 : ℤ) : ℝ) := by
          refine le_trans hb.2 ?_
          exact_mod_cast Nat.cast_le.mpr hn
        constructor
        · simp only [nFrom, hfr, if_neg hr]
          exact Int.ceil_nonneg h0
        · simp only [nFrom, hfr, if_neg hr]
          exact Int.ceil_le.mpr h1000

/-- C9: with a root finder that only reports roots inside the bracket it was
given, a failed search makes es return exactly -111.0 and n exactly -111;
every successful es result lies in [0.001, 8] and every successful n result
lies in [0, 1000], so the sentinels never coincide with a success. -/
theorem solver_failure_sentinel (E : PDistEngine) (fr : FindRoot) (t : TestKind)
    (tail : Tail) (n alpha power es : ℝ)
    (hbr : ∀ lo hi g r, fr lo hi g = some r → lo ≤ r ∧ r ≤ hi) :
    (fr 0.001 8 (esTarget E t tail n alpha power) = none →
      TestKind.es E fr t tail n alpha power = -111) ∧
    ((∀ j, j < 50 → fr ((20 * j : ℕ) : ℝ) ((20 * j + 20 : ℕ) : ℝ)
        (nTarget E t tail alpha power es) = none) →
      TestKind.n E fr t tail alpha power es = -111) ∧
    (TestKind.es E fr t tail n alpha power = -111 ∨
      (0.001 ≤ TestKind.es E fr t tail n alpha power ∧
        TestKind.es E fr t tail n alpha power ≤ 8)) ∧
    (TestKind.n E fr t tail alpha power es = -111 ∨
      (0 ≤ TestKind.n E fr t tail alpha power es ∧
        TestKind.n E fr t tail alpha power es ≤ 1000)) := by
  refine ⟨?_, ?_, ?_, ?_⟩
  · intro h
    unfold TestKind.es
    rw [h]
    rfl
  · intro h
    refine nFrom_of_none fr (nTarget E t tail alpha power es) 50 0 ?_
    rintro j _ h2 ⟨r, hr, -⟩
    rw [h j (by omega)] at hr
    exact Option.noConfusion hr
  · unfold TestKind.es
    cases hfr : fr 0.001 8 (esTarget E t tail n alpha power) with
    | none => left; rfl
    | some r =>
      right
      have hb := hbr _ _ _ _ hfr
      simpa using hb
  · exact nFrom_bounds fr (nTarget E t tail alpha power es) hbr 50 0 (by omega)

/-- C9 witness: with a root finder that always fails, the sentinels are
produced at concrete inputs. -/
theorem solver_failure_sentinel_witness :
    TestKind.es zeroEngine noneRoot TestKind.independentSamplesTTest Tail.oneSided
      30 0.05 0.8 = -111 :=
  (solver_failure_sentinel zeroEngine noneRoot TestKind.independentSamplesTTest
    Tail.oneSided 30 0.05 0.8 0.5
    (fun _ _ _ _ h => Option.noConfusion h)).1 rfl
